import Mathlib

/-!
Shallow embedding of the invoicer analytics engine
(back-end/services/analyticsService.js and the AI service's query
classifier / churn summary), together with theorems settling the spec's
claims about it.

Conventions of the embedding:
* timestamps are integers in milliseconds (JS `Date.getTime()`);
* currency amounts and all JS floating-point arithmetic on them are
  modelled with `Rat` (every quantity the code manipulates is an exact
  decimal, so no rounding behaviour is lost);
* JS `Map`/`Set` and the string-keyed accumulation objects are modelled
  as association lists / lists in insertion order, which is the
  iteration order JS guarantees;
* a JS division whose denominator is zero produces `NaN`/`Infinity`;
  where a claim is about that, the division is modelled as an `Option`
  (`none` = not a finite number).
-/

/-- Milliseconds per day (`24 * 60 * 60 * 1000`). -/
def msPerDay : Int := 86400000

/-- A resolved line-item reference carried on an invoice
(`invoice.items[i]`, populated with `name` and `unitPrice`). -/
structure ItemRef where
  id : String
  name : String
  unitPrice : Rat
deriving DecidableEq

/-- An invoice document with its client reference resolved
(`invoice.client._id`, `invoice.client.name`). -/
structure Invoice where
  clientId : String
  clientName : String
  items : List ItemRef
  total : Rat
  status : String
  issueDate : Int
  dueDate : Int
deriving DecidableEq

/-- An (active) client document. -/
structure ClientDoc where
  id : String
  name : String
deriving DecidableEq

/-- A catalogue item document. -/
structure CatalogItem where
  id : String
  name : String
  unitPrice : Rat
  quantity : Int
  status : String
deriving DecidableEq

/-- `AnalyticsService.isOverdue`: due date strictly in the past and the
invoice is not paid. -/
def isOverdue (inv : Invoice) (now : Int) : Bool :=
  decide (inv.dueDate < now) && !(inv.status == "paid")

/-- JS `Set.add` on a list kept in insertion order. -/
def setAdd (s : List String) (a : String) : List String :=
  if a ∈ s then s else s ++ [a]

/-- The invoices belonging to a given client
(`invoices.filter(inv => inv.client._id.toString() === clientId)`). -/
def clientInvoicesOf (invoices : List Invoice) (cid : String) : List Invoice :=
  invoices.filter (fun inv => inv.clientId == cid)

/-- The client's invoices issued within the trailing 90-day window
(`issueDate >= threeMonthsAgo`). -/
def recentWindow (invoices : List Invoice) (cid : String) (now : Int) : List Invoice :=
  (clientInvoicesOf invoices cid).filter
    (fun inv => decide (inv.issueDate ≥ now - 90 * msPerDay))

/-- The client's invoices issued between 180 and 90 days ago
(`issueDate >= sixMonthsAgo && issueDate < threeMonthsAgo`). -/
def olderWindow (invoices : List Invoice) (cid : String) (now : Int) : List Invoice :=
  (clientInvoicesOf invoices cid).filter
    (fun inv =>
      decide (inv.issueDate ≥ now - 180 * msPerDay) &&
      decide (inv.issueDate < now - 90 * msPerDay))

/-- The client's currently overdue invoices (over their whole history). -/
def overdueOf (invoices : List Invoice) (cid : String) (now : Int) : List Invoice :=
  (clientInvoicesOf invoices cid).filter (fun inv => isOverdue inv now)

/-- One conditional `riskScore += pts; riskFactors.push(label)` step of
the churn scorer. -/
def scoreStep (cond : Bool) (pts : Nat) (label : String)
    (acc : Nat × List String) : Nat × List String :=
  if cond then (acc.1 + pts, acc.2 ++ [label]) else acc

/-- The five-step additive churn score of `analyzeChurnRisk`, before the
final clamp at 100, given the five firing conditions. -/
def churnScore (b1 b2 b3 b4 b5 : Bool) : Nat × List String :=
  scoreStep b5 15 "Has overdue invoices"
    (scoreStep b4 25 "No recent purchases"
      (scoreStep b3 20 "Extended payment delays"
        (scoreStep b2 25 "Reduced purchase frequency"
          (scoreStep b1 30 "Significant decline in purchase volume" (0, [])))))

/-- The supporting metrics of a `ChurnRiskResult`. -/
structure ChurnMetrics where
  recentVolume : Rat
  olderVolume : Rat
  volumeChange : Rat
  recentCount : Nat
  olderCount : Nat
  frequencyChange : Rat
  maxPaymentDelay : Int
  averagePaymentDelay : Rat
  overdueInvoicesCount : Nat
  lastPurchaseDate : Option Int
deriving DecidableEq

/-- The per-client record produced by `analyzeChurnRisk`. -/
structure ChurnRiskEntry where
  clientId : String
  clientName : String
  riskScore : Nat
  riskFactors : List String
  metrics : ChurnMetrics
deriving DecidableEq

/-- Total spend of a window (`reduce((sum, inv) => sum + inv.total, 0)`). -/
def windowVolume (l : List Invoice) : Rat :=
  (l.map (fun inv => inv.total)).sum

/-- Days each overdue invoice is past due
(`Math.floor((now - inv.dueDate) / (1000*60*60*24))`). -/
def paymentDelaysOf (l : List Invoice) (now : Int) : List Int :=
  l.map (fun inv => Int.fdiv (now - inv.dueDate) msPerDay)

/-- `delays.length > 0 ? Math.max(...delays) : 0`. -/
def jsListMax : List Int → Int
  | [] => 0
  | d :: ds => ds.foldl max d

/-- The risk score and factor list of `analyzeChurnRisk` (before the
clamp at 100), as a function of the client's recent window, older
window and overdue-invoice list. -/
def churnConditions (recentInvoices olderInvoices overdueInvoices : List Invoice)
    (now : Int) : Nat × List String :=
  churnScore
    (decide (windowVolume olderInvoices > 0) &&
      decide (windowVolume recentInvoices < windowVolume olderInvoices * (1/2)))
    (decide (olderInvoices.length > 0) &&
      decide ((recentInvoices.length : Rat) < (olderInvoices.length : Rat) * (1/2)))
    (decide (jsListMax (paymentDelaysOf overdueInvoices now) > 30))
    ((recentInvoices.length == 0) && decide (olderInvoices.length > 0))
    (decide (overdueInvoices.length > 0))

/-- The per-client body of `AnalyticsService.analyzeChurnRisk`. -/
def churnEntry (invoices : List Invoice) (now : Int) (c : ClientDoc) : ChurnRiskEntry :=
  let clientInvoices := clientInvoicesOf invoices c.id
  let recentInvoices := recentWindow invoices c.id now
  let olderInvoices := olderWindow invoices c.id now
  let recentVolume := windowVolume recentInvoices
  let olderVolume := windowVolume olderInvoices
  let recentCount := recentInvoices.length
  let olderCount := olderInvoices.length
  let overdueInvoices := overdueOf invoices c.id now
  let paymentDelays := paymentDelaysOf overdueInvoices now
  let sc := churnConditions recentInvoices olderInvoices overdueInvoices now
  { clientId := c.id
    clientName := c.name
    riskScore := min sc.1 100
    riskFactors := sc.2
    metrics :=
      { recentVolume := recentVolume
        olderVolume := olderVolume
        volumeChange :=
          if olderVolume > 0 then ((recentVolume - olderVolume) / olderVolume) * 100 else 0
        recentCount := recentCount
        olderCount := olderCount
        frequencyChange :=
          if olderCount > 0 then
            (((recentCount : Rat) - (olderCount : Rat)) / (olderCount : Rat)) * 100
          else 0
        maxPaymentDelay := jsListMax paymentDelays
        averagePaymentDelay :=
          if paymentDelays.length > 0 then
            ((paymentDelays.sum : Int) : Rat) / (paymentDelays.length : Rat)
          else 0
        overdueInvoicesCount := overdueInvoices.length
        lastPurchaseDate :=
          match clientInvoices.map (fun inv => inv.issueDate) with
          | [] => none
          | d :: ds => some (ds.foldl max d) } }

/-- `AnalyticsService.analyzeChurnRisk`: one `ChurnRiskEntry` per active
client, keyed by client id, in the clients' order. -/
def analyzeChurnRisk (invoices : List Invoice) (clients : List ClientDoc)
    (now : Int) : List (String × ChurnRiskEntry) :=
  clients.map (fun c => (c.id, churnEntry invoices now c))

-- Sample data: scenario A (claim C2).
/-- Scenario A's client X. -/
def scAClient : ClientDoc := { id := "cx", name := "X" }

/-- Older-window invoice of $600 (paid), issued 170 days before `now`. -/
def scAInv1 : Invoice :=
  { clientId := "cx", clientName := "X", items := [], total := 600
    status := "paid", issueDate := 30 * msPerDay, dueDate := 44 * msPerDay }

/-- Older-window invoice of $400 (paid), issued 120 days before `now`. -/
def scAInv2 : Invoice :=
  { clientId := "cx", clientName := "X", items := [], total := 400
    status := "paid", issueDate := 80 * msPerDay, dueDate := 94 * msPerDay }

/-- Recent-window invoice of $200, unpaid and 45 days past due. -/
def scAInv3 : Invoice :=
  { clientId := "cx", clientName := "X", items := [], total := 200
    status := "unpaid", issueDate := 130 * msPerDay, dueDate := 155 * msPerDay }

/-- The `now` timestamp used by the concrete scenarios: day 200. -/
def scNow : Int := 200 * msPerDay

/-- C2: for a client whose older window holds $1000 over 2 invoices,
whose recent window holds $200 over 1 invoice, and who has exactly one
overdue invoice 45 days past due, `analyzeChurnRisk` yields risk score
65 with exactly the factors "Significant decline in purchase volume",
"Extended payment delays" and "Has overdue invoices" (so in particular
not "Reduced purchase frequency"). -/
theorem analyzeChurnRisk_scenarioA :
    (analyzeChurnRisk [scAInv1, scAInv2, scAInv3] [scAClient] scNow).map
        (fun p => (p.1, p.2.riskScore, p.2.riskFactors)) =
      [("cx", 65,
        ["Significant decline in purchase volume",
         "Extended payment delays",
         "Has overdue invoices"])] ∧
    (olderWindow [scAInv1, scAInv2, scAInv3] "cx" scNow).length = 2 ∧
    ((olderWindow [scAInv1, scAInv2, scAInv3] "cx" scNow).map
        (fun inv => inv.total)).sum = 1000 ∧
    (recentWindow [scAInv1, scAInv2, scAInv3] "cx" scNow).length = 1 ∧
    ((recentWindow [scAInv1, scAInv2, scAInv3] "cx" scNow).map
        (fun inv => inv.total)).sum = 200 ∧
    (overdueOf [scAInv1, scAInv2, scAInv3] "cx" scNow).length = 1 := by
  set_option maxRecDepth 100000 in with_unfolding_all decide

-- Helper lemmas about the churn score chain.

/-- The factor list of the score chain is empty exactly when the score
is zero: every firing condition contributes both points and a label. -/
theorem churnScore_factors_iff (b1 b2 b3 b4 b5 : Bool) :
    (churnScore b1 b2 b3 b4 b5).2 = [] ↔ (churnScore b1 b2 b3 b4 b5).1 = 0 := by
  revert b1 b2 b3 b4 b5
  decide

/-- Same statement lifted to `churnConditions`. -/
theorem churnConditions_factors_iff (r o v : List Invoice) (now : Int) :
    (churnConditions r o v now).2 = [] ↔ (churnConditions r o v now).1 = 0 := by
  unfold churnConditions
  exact churnScore_factors_iff _ _ _ _ _

/-- Projection lemma: the risk score of a churn entry is the clamped
score chain over the client's three invoice partitions. -/
theorem churnEntry_riskScore (invoices : List Invoice) (now : Int) (c : ClientDoc) :
    (churnEntry invoices now c).riskScore =
      min (churnConditions (recentWindow invoices c.id now)
        (olderWindow invoices c.id now) (overdueOf invoices c.id now) now).1 100 := rfl

/-- Projection lemma: the factor list of a churn entry is the factor
component of the score chain. -/
theorem churnEntry_riskFactors (invoices : List Invoice) (now : Int) (c : ClientDoc) :
    (churnEntry invoices now c).riskFactors =
      (churnConditions (recentWindow invoices c.id now)
        (olderWindow invoices c.id now) (overdueOf invoices c.id now) now).2 := rfl

/-- With all three partitions empty no condition fires. -/
theorem churnConditions_empty (now : Int) : churnConditions [] [] [] now = (0, []) := by
  with_unfolding_all rfl

/-- C5: every entry produced by `analyzeChurnRisk` has a risk score in
[0, 100] (scores are naturals, so 0 ≤ score holds by type), and its
risk-factor list is empty exactly when the score is zero. -/
theorem analyzeChurnRisk_riskScore_bounds (invoices : List Invoice)
    (clients : List ClientDoc) (now : Int) (p : String × ChurnRiskEntry)
    (hp : p ∈ analyzeChurnRisk invoices clients now) :
    p.2.riskScore ≤ 100 ∧ (p.2.riskFactors = [] ↔ p.2.riskScore = 0) := by
  rcases List.mem_map.mp hp with ⟨c, -, rfl⟩
  constructor
  · show (churnEntry invoices now c).riskScore ≤ 100
    rw [churnEntry_riskScore]
    exact Nat.min_le_right _ _
  · show (churnEntry invoices now c).riskFactors = [] ↔
      (churnEntry invoices now c).riskScore = 0
    rw [churnEntry_riskScore, churnEntry_riskFactors, churnConditions_factors_iff]
    omega

/-- Witness for C5 at a concrete input: one client, no invoices. -/
theorem analyzeChurnRisk_riskScore_bounds_witness :
    (("cy", churnEntry [] 0 { id := "cy", name := "Y" }) :
        String × ChurnRiskEntry).2.riskScore ≤ 100 ∧
      ((("cy", churnEntry [] 0 { id := "cy", name := "Y" }) :
        String × ChurnRiskEntry).2.riskFactors = [] ↔
       (("cy", churnEntry [] 0 { id := "cy", name := "Y" }) :
        String × ChurnRiskEntry).2.riskScore = 0) :=
  analyzeChurnRisk_riskScore_bounds [] [{ id := "cy", name := "Y" }] 0 _
    (by with_unfolding_all decide)

-- Claim C3: sample data. Client Y's only invoice predates both windows
-- (issued on day 0, `now` is day 200) but is still unpaid and overdue.
/-- An ancient unpaid invoice, 190 days past due at `scNow`. -/
def scBInv : Invoice :=
  { clientId := "cy", clientName := "Y", items := [], total := 100
    status := "unpaid", issueDate := 0, dueDate := 10 * msPerDay }

/-- C3 counterexample: a client with zero invoices in both windows but
with an overdue invoice older than 180 days gets risk score 35 (not 0)
and two risk factors (not none): the overdue-invoice conditions look at
the client's whole history, not just the two windows. -/
theorem analyzeChurnRisk_old_overdue_nonzero :
    recentWindow [scBInv] "cy" scNow = [] ∧
    olderWindow [scBInv] "cy" scNow = [] ∧
    (analyzeChurnRisk [scBInv] [{ id := "cy", name := "Y" }] scNow).map
        (fun p => (p.1, p.2.riskScore, p.2.riskFactors)) =
      [("cy", 35, ["Extended payment delays", "Has overdue invoices"])] := by
  set_option maxRecDepth 100000 in with_unfolding_all decide

/-- C3 (amended): a client with zero invoices in both windows and no
overdue invoices anywhere in its history gets risk score 0 and an empty
factor list. -/
theorem analyzeChurnRisk_empty_windows_zero (invoices : List Invoice)
    (clients : List ClientDoc) (now : Int) (p : String × ChurnRiskEntry)
    (hp : p ∈ analyzeChurnRisk invoices clients now)
    (hrec : recentWindow invoices p.1 now = [])
    (hold : olderWindow invoices p.1 now = [])
    (hov : overdueOf invoices p.1 now = []) :
    p.2.riskScore = 0 ∧ p.2.riskFactors = [] := by
  rcases List.mem_map.mp hp with ⟨c, -, rfl⟩
  dsimp only at hrec hold hov
  constructor
  · show (churnEntry invoices now c).riskScore = 0
    rw [churnEntry_riskScore, hrec, hold, hov, churnConditions_empty]
    omega
  · show (churnEntry invoices now c).riskFactors = []
    rw [churnEntry_riskFactors, hrec, hold, hov, churnConditions_empty]

/-- Paid ancient invoice used by the C3 witness. -/
def scCInv : Invoice :=
  { clientId := "cz", clientName := "Z", items := [], total := 50
    status := "paid", issueDate := 0, dueDate := 10 * msPerDay }

/-- Witness for the amended C3 at a concrete input: a client whose only
invoice is ancient but paid. -/
theorem analyzeChurnRisk_empty_windows_zero_witness :
    (("cz", churnEntry [scCInv] scNow { id := "cz", name := "Z" }) :
        String × ChurnRiskEntry).2.riskScore = 0 ∧
    (("cz", churnEntry [scCInv] scNow { id := "cz", name := "Z" }) :
        String × ChurnRiskEntry).2.riskFactors = [] :=
  analyzeChurnRisk_empty_windows_zero [scCInv] [{ id := "cz", name := "Z" }] scNow _
    (by with_unfolding_all decide)
    (by with_unfolding_all decide)
    (by with_unfolding_all decide)
    (by with_unfolding_all decide)

-- AIService.getChurnRiskAnalysis summary (src/unnamed/part_005).

/-- JS floating-point division: `none` models the `NaN`/`Infinity`
produced when the denominator is zero. -/
def jsDiv (a b : Rat) : Option Rat := if b = 0 then none else some (a / b)

/-- Descending-risk comparator used by
`highRiskClients.sort((a, b) => b.riskScore - a.riskScore)`. -/
def churnDesc (a b : ChurnRiskEntry) : Prop := b.riskScore ≤ a.riskScore

instance : DecidableRel churnDesc :=
  fun a b => inferInstanceAs (Decidable (b.riskScore ≤ a.riskScore))

/-- The `summary` object assembled by `AIService.getChurnRiskAnalysis`. -/
structure ChurnSummary where
  totalClients : Nat
  highRiskCount : Nat
  averageRiskScore : Option Rat
deriving DecidableEq

/-- `AIService.getChurnRiskAnalysis`, applied to the churn-risk mapping:
filters clients with score > 30, sorts them by descending score, and
computes the summary; `averageRiskScore` divides the score sum by the
number of clients with no guard against zero clients. -/
def getChurnRiskAnalysis (churnRisk : List (String × ChurnRiskEntry)) :
    List ChurnRiskEntry × ChurnSummary :=
  let highRiskClients :=
    ((churnRisk.map (fun p => p.2)).filter
      (fun e => decide (e.riskScore > 30))).insertionSort churnDesc
  (highRiskClients,
   { totalClients := churnRisk.length
     highRiskCount := highRiskClients.length
     averageRiskScore :=
       jsDiv (((churnRisk.map (fun p => p.2.riskScore)).sum : Nat) : Rat)
         ((churnRisk.length : Nat) : Rat) })

/-- C9: on the degenerate input with zero clients (hence an empty
churn-risk mapping), the analysis yields empty results but the summary's
`averageRiskScore` is the unguarded division 0 / 0, i.e. `NaN`
(modelled as `none`), contradicting the requirement that degenerate
data never produce `NaN`. -/
theorem getChurnRiskAnalysis_zero_clients_nan :
    analyzeChurnRisk [] [] 0 = [] ∧
    (getChurnRiskAnalysis (analyzeChurnRisk [] [] 0)).1 = [] ∧
    (getChurnRiskAnalysis (analyzeChurnRisk [] [] 0)).2.totalClients = 0 ∧
    (getChurnRiskAnalysis (analyzeChurnRisk [] [] 0)).2.averageRiskScore = none := by
  with_unfolding_all decide

-- AnalyticsService.detectPatternChanges.

/-- The timeframe cut-off (`comparisonPeriod`): 90 days back for
'3months', 180 for '6months', 90 for anything else. -/
def comparisonPeriod (timeframe : String) (now : Int) : Int :=
  if timeframe == "3months" then now - 90 * msPerDay
  else if timeframe == "6months" then now - 180 * msPerDay
  else now - 90 * msPerDay

/-- The detector's recent pool: `issueDate >= comparisonPeriod`. -/
def patternRecent (invoices : List Invoice) (timeframe : String) (now : Int) :
    List Invoice :=
  invoices.filter
    (fun inv => decide (inv.issueDate ≥ comparisonPeriod timeframe now))

/-- The detector's older pool. The source computes the lower bound as
`new Date(comparisonPeriod.getTime() - (comparisonPeriod - now.getTime()))`,
where the `Date` coerces to its millisecond value, i.e. the bound is
`cp - (cp - now)`. -/
def patternOlder (invoices : List Invoice) (timeframe : String) (now : Int) :
    List Invoice :=
  let cp := comparisonPeriod timeframe now
  invoices.filter
    (fun inv =>
      decide (inv.issueDate ≥ cp - (cp - now)) && decide (inv.issueDate < cp))

/-- The per-client accumulation object of `detectPatternChanges`. -/
structure PatternGroup where
  clientId : String
  clientName : String
  recentInvoices : List Invoice
  recentTotal : Rat
  recentItems : List String
  olderInvoices : List Invoice
  olderTotal : Rat
  olderItems : List String
deriving DecidableEq

/-- An empty accumulation group for a client. -/
def emptyGroup (cid cname : String) : PatternGroup :=
  { clientId := cid, clientName := cname
    recentInvoices := [], recentTotal := 0, recentItems := []
    olderInvoices := [], olderTotal := 0, olderItems := [] }

/-- One step of the client-grouping loop: create the group on first
sight, then add the invoice to its recent or older bucket depending on
`issueDate >= comparisonPeriod`. -/
def addToGroup (cp : Int) (gs : List PatternGroup) (inv : Invoice) :
    List PatternGroup :=
  let gs' := if gs.any (fun g => g.clientId == inv.clientId) then gs
             else gs ++ [emptyGroup inv.clientId inv.clientName]
  gs'.map (fun g =>
    if g.clientId == inv.clientId then
      if decide (inv.issueDate ≥ cp) then
        { g with recentInvoices := g.recentInvoices ++ [inv]
                 recentTotal := g.recentTotal + inv.total
                 recentItems := inv.items.foldl (fun s it => setAdd s it.name) g.recentItems }
      else
        { g with olderInvoices := g.olderInvoices ++ [inv]
                 olderTotal := g.olderTotal + inv.total
                 olderItems := inv.items.foldl (fun s it => setAdd s it.name) g.olderItems }
    else g)

/-- Percentage change in spend for a group, guarded against an empty
older window. -/
def groupVolumeChange (g : PatternGroup) : Rat :=
  if g.olderTotal > 0 then ((g.recentTotal - g.olderTotal) / g.olderTotal) * 100 else 0

/-- Percentage change in invoice count for a group, guarded against an
empty older window. -/
def groupFrequencyChange (g : PatternGroup) : Rat :=
  if g.olderInvoices.length > 0 then
    (((g.recentInvoices.length : Rat) - (g.olderInvoices.length : Rat)) /
      (g.olderInvoices.length : Rat)) * 100
  else 0

/-- Render a non-negative rational with one decimal digit, as JS
`Math.abs(x).toFixed(1)` does (round to nearest, ties away from zero,
which for non-negative arguments is rounding half up). -/
def fixed1 (q : Rat) : String :=
  let n : Int := (q * 10 + 1/2).floor
  toString (n / 10) ++ "." ++ toString (n % 10)

/-- The entry `detectPatternChanges` emits for one client group, when
one of the metrics crosses the 20% significance threshold. -/
structure PatternChangeEntry where
  clientId : String
  clientName : String
  changes : List String
  volumeChange : Rat
  frequencyChange : Rat
  recentTotal : Rat
  olderTotal : Rat
  recentCount : Nat
  olderCount : Nat
  recentItems : List String
  olderItems : List String
deriving DecidableEq

/-- The body of the per-client change computation (the
`Object.values(clientGroups).forEach` loop): an entry is produced
exactly when at least one metric moves by more than 20%, with one
descriptive line pushed per crossing metric. -/
def patternEntry (g : PatternGroup) : Option (String × PatternChangeEntry) :=
  let volumeChange := groupVolumeChange g
  let frequencyChange := groupFrequencyChange g
  let sig1 : List String :=
    if |volumeChange| > 20 then
      ["Purchase volume " ++ (if volumeChange > 0 then "increased" else "decreased") ++
        " by " ++ fixed1 |volumeChange| ++ "%"]
    else []
  let sig2 : List String :=
    if |frequencyChange| > 20 then
      ["Purchase frequency " ++ (if frequencyChange > 0 then "increased" else "decreased") ++
        " by " ++ fixed1 |frequencyChange| ++ "%"]
    else []
  let significantChanges := sig1 ++ sig2
  if significantChanges.length > 0 then
    some (g.clientId,
      { clientId := g.clientId
        clientName := g.clientName
        changes := significantChanges
        volumeChange := volumeChange
        frequencyChange := frequencyChange
        recentTotal := g.recentTotal
        olderTotal := g.olderTotal
        recentCount := g.recentInvoices.length
        olderCount := g.olderInvoices.length
        recentItems := g.recentItems
        olderItems := g.olderItems })
  else none

/-- The change mapping built from the grouped clients, in group order. -/
def patternChangesOfGroups (gs : List PatternGroup) :
    List (String × PatternChangeEntry) :=
  gs.filterMap patternEntry

/-- `AnalyticsService.detectPatternChanges`. -/
def detectPatternChanges (invoices : List Invoice) (timeframe : String)
    (now : Int) : List (String × PatternChangeEntry) :=
  let cp := comparisonPeriod timeframe now
  let pool := patternRecent invoices timeframe now ++ patternOlder invoices timeframe now
  patternChangesOfGroups (pool.foldl (addToGroup cp) [])

/-- A recent invoice (30 days old at day 400) for the pattern claims. -/
def pInvRecent : Invoice :=
  { clientId := "cx", clientName := "X", items := [], total := 200
    status := "paid", issueDate := 370 * msPerDay, dueDate := 384 * msPerDay }

/-- An invoice 120 days old at day 400: inside the prior equal-length
period the spec assigns to the older window. -/
def pInvPrior : Invoice :=
  { clientId := "cx", clientName := "X", items := [], total := 1000
    status := "paid", issueDate := 280 * msPerDay, dueDate := 294 * msPerDay }

/-- The timeframe cut-off always lies strictly before `now`. -/
theorem comparisonPeriod_lt (timeframe : String) (now : Int) :
    comparisonPeriod timeframe now < now := by
  unfold comparisonPeriod msPerDay
  split <;> [omega; split <;> omega]

/-- The older-window filter of the detector is unsatisfiable: its lower
bound `cp - (cp - now)` equals `now`, so it demands `issueDate ≥ now`
and `issueDate < cp < now` at once. -/
theorem patternOlder_nil (invoices : List Invoice) (timeframe : String) (now : Int) :
    patternOlder invoices timeframe now = [] := by
  have hlt := comparisonPeriod_lt timeframe now
  simp only [patternOlder]
  rw [List.filter_eq_nil_iff]
  intro inv _
  simp only [Bool.and_eq_true, decide_eq_true_eq, not_and]
  intro h1 h2
  omega

/-- Grouping a pool of invoices that all lie in the recent window keeps
every group's older bucket empty. -/
theorem foldl_addToGroup_older_empty (cp : Int) (l : List Invoice)
    (acc : List PatternGroup)
    (hl : ∀ inv ∈ l, cp ≤ inv.issueDate)
    (hacc : ∀ g ∈ acc, g.olderInvoices = [] ∧ g.olderTotal = 0) :
    ∀ g ∈ l.foldl (addToGroup cp) acc, g.olderInvoices = [] ∧ g.olderTotal = 0 := by
  induction l generalizing acc with
  | nil => exact hacc
  | cons inv rest ih =>
    intro g hg
    refine ih (addToGroup cp acc inv)
      (fun i hi => hl i (List.mem_cons_of_mem _ hi)) ?_ g hg
    intro g' hg'
    have hinv : cp ≤ inv.issueDate := hl inv (List.mem_cons_self _ _)
    unfold addToGroup at hg'
    rcases List.mem_map.mp hg' with ⟨g0, hg0, rfl⟩
    have hg0' : g0.olderInvoices = [] ∧ g0.olderTotal = 0 := by
      have hcases : g0 ∈ acc ∨ g0 = emptyGroup inv.clientId inv.clientName := by
        split at hg0
        · exact Or.inl hg0
        · exact (List.mem_append.mp hg0).elim Or.inl
            (fun hx => Or.inr (List.mem_singleton.mp hx))
      rcases hcases with hmem | rfl
      · exact hacc g0 hmem
      · exact ⟨rfl, rfl⟩
    split
    · rw [if_pos (by exact decide_eq_true hinv)]
      exact hg0'
    · exact hg0'

/-- A group with an empty older bucket has both percentage changes 0. -/
theorem patternEntry_older_empty_none (g : PatternGroup)
    (h1 : g.olderInvoices = []) (h2 : g.olderTotal = 0) :
    patternEntry g = none := by
  have hv : groupVolumeChange g = 0 := by simp [groupVolumeChange, h2]
  have hf : groupFrequencyChange g = 0 := by simp [groupFrequencyChange, h1]
  simp [patternEntry, hv, hf]

/-- C1 is refuted: because the older-window bound is computed as
`cp - (cp - now)` instead of `cp - (now - cp)`, the older window is
always empty and `detectPatternChanges` returns the empty mapping on
every input; in particular the concrete invoice issued 120 days before
`now`, which the claim places in the older window, is dropped. -/
theorem detectPatternChanges_prior_period_dropped :
    (∀ (invoices : List Invoice) (timeframe : String) (now : Int),
      patternOlder invoices timeframe now = []) ∧
    (∀ (invoices : List Invoice) (timeframe : String) (now : Int),
      detectPatternChanges invoices timeframe now = []) ∧
    (400 * msPerDay - 180 * msPerDay ≤ pInvPrior.issueDate ∧
      pInvPrior.issueDate < 400 * msPerDay - 90 * msPerDay) := by
  refine ⟨patternOlder_nil, ?_, by decide⟩
  intro invoices timeframe now
  unfold detectPatternChanges
  rw [patternOlder_nil, List.append_nil]
  have hgroups := foldl_addToGroup_older_empty (comparisonPeriod timeframe now)
    (patternRecent invoices timeframe now) []
    (fun inv hinv => by
      have := (List.mem_filter.mp hinv).2
      simpa [decide_eq_true_eq] using this)
    (fun g hg => absurd hg (List.not_mem_nil g))
  unfold patternChangesOfGroups
  rw [List.filterMap_eq_nil_iff]
  intro g hg
  exact patternEntry_older_empty_none g (hgroups g hg).1 (hgroups g hg).2

-- Claim C8: significance threshold of the per-client change loop.

/-- Shape of the entry emitted for a group: it records the group's
metrics, it is keyed by the group's client id, and its change lines
track exactly the metrics crossing the 20% threshold. -/
theorem patternEntry_some (g : PatternGroup) (p : String × PatternChangeEntry)
    (h : patternEntry g = some p) :
    p.1 = g.clientId ∧
    p.2.volumeChange = groupVolumeChange g ∧
    p.2.frequencyChange = groupFrequencyChange g ∧
    (|p.2.volumeChange| > 20 ∨ |p.2.frequencyChange| > 20) ∧
    p.2.changes ≠ [] ∧
    p.2.changes.length =
      (if |p.2.volumeChange| > 20 then 1 else 0) +
      (if |p.2.frequencyChange| > 20 then 1 else 0) := by
  by_cases hv : |groupVolumeChange g| > 20
  · by_cases hf : |groupFrequencyChange g| > 20
    · simp only [patternEntry, hv, hf, ite_true, ite_false] at h
      norm_num at h
      subst h
      exact ⟨rfl, rfl, rfl, Or.inl hv, by simp, by simp [hv, hf]⟩
    · simp only [patternEntry, hv, hf, ite_true, ite_false] at h
      norm_num at h
      subst h
      exact ⟨rfl, rfl, rfl, Or.inl hv, by simp, by simp [hv, hf]⟩
  · by_cases hf : |groupFrequencyChange g| > 20
    · simp only [patternEntry, hv, hf, ite_true, ite_false] at h
      norm_num at h
      subst h
      exact ⟨rfl, rfl, rfl, Or.inr hf, by simp, by simp [hv, hf]⟩
    · simp only [patternEntry, hv, hf, ite_true, ite_false] at h
      exact absurd h (by simp)

/-- A group crossing neither threshold emits no entry. -/
theorem patternEntry_none (g : PatternGroup)
    (hv : ¬ |groupVolumeChange g| > 20) (hf : ¬ |groupFrequencyChange g| > 20) :
    patternEntry g = none := by
  simp [patternEntry, hv, hf]

/-- C8: every entry in the detector's change mapping has at least one
metric beyond the 20% threshold, a non-empty change list with one line
per crossing metric; and a client whose group crosses neither threshold
is absent from the mapping altogether. -/
theorem patternChanges_significant_only (gs : List PatternGroup)
    (hids : gs.Pairwise (fun a b => a.clientId ≠ b.clientId)) :
    (∀ p ∈ patternChangesOfGroups gs,
        (|p.2.volumeChange| > 20 ∨ |p.2.frequencyChange| > 20) ∧
        p.2.changes ≠ [] ∧
        p.2.changes.length =
          (if |p.2.volumeChange| > 20 then 1 else 0) +
          (if |p.2.frequencyChange| > 20 then 1 else 0)) ∧
    (∀ g ∈ gs, ¬ |groupVolumeChange g| > 20 → ¬ |groupFrequencyChange g| > 20 →
        ∀ p ∈ patternChangesOfGroups gs, p.1 ≠ g.clientId) := by
  constructor
  · intro p hp
    obtain ⟨g, hg, hsome⟩ := List.mem_filterMap.mp hp
    exact (patternEntry_some g p hsome).2.2.2
  · intro g hg hv hf p hp heq
    obtain ⟨g', hg', hsome⟩ := List.mem_filterMap.mp hp
    have hid : p.1 = g'.clientId := (patternEntry_some g' p hsome).1
    have hgg : g' = g := by
      by_contra hne
      exact List.Pairwise.forall (fun a b hab => Ne.symm hab) hids hg' hg hne
        (hid.symm.trans heq)
    rw [hgg, patternEntry_none g hv hf] at hsome
    exact Option.noConfusion hsome

/-- A group with an 80% drop in volume (crosses the 20% threshold). -/
def pgSig : PatternGroup :=
  { clientId := "g1", clientName := "G1"
    recentInvoices := [pInvRecent], recentTotal := 200, recentItems := []
    olderInvoices := [pInvPrior], olderTotal := 1000, olderItems := [] }

/-- A group with unchanged volume and frequency (crosses nothing). -/
def pgNoSig : PatternGroup :=
  { clientId := "g2", clientName := "G2"
    recentInvoices := [pInvRecent], recentTotal := 200, recentItems := []
    olderInvoices := [pInvPrior], olderTotal := 200, olderItems := [] }

/-- The entry the change loop emits for `pgSig`. -/
def pgSigEntry : String × PatternChangeEntry :=
  ("g1",
   { clientId := "g1", clientName := "G1"
     changes := ["Purchase volume decreased by 80.0%"]
     volumeChange := -80, frequencyChange := 0
     recentTotal := 200, olderTotal := 1000
     recentCount := 1, olderCount := 1
     recentItems := [], olderItems := [] })

/-- Witness for C8 at a concrete input: two groups, one crossing the
volume threshold (present, one change line) and one crossing nothing
(absent from the mapping). -/
theorem patternChanges_significant_only_witness :
    ((|pgSigEntry.2.volumeChange| > 20 ∨ |pgSigEntry.2.frequencyChange| > 20) ∧
      pgSigEntry.2.changes ≠ [] ∧
      pgSigEntry.2.changes.length =
        (if |pgSigEntry.2.volumeChange| > 20 then 1 else 0) +
        (if |pgSigEntry.2.frequencyChange| > 20 then 1 else 0)) ∧
    (∀ p ∈ patternChangesOfGroups [pgSig, pgNoSig], p.1 ≠ pgNoSig.clientId) :=
  ⟨(patternChanges_significant_only [pgSig, pgNoSig]
      (by simp [pgSig, pgNoSig])).1 pgSigEntry
      (by set_option maxRecDepth 20000 in with_unfolding_all decide),
   (patternChanges_significant_only [pgSig, pgNoSig]
      (by simp [pgSig, pgNoSig])).2 pgNoSig
      (by simp)
      (by set_option maxRecDepth 20000 in with_unfolding_all decide)
      (by set_option maxRecDepth 20000 in with_unfolding_all decide)⟩

-- AnalyticsService.getProductRecommendations.

/-- The target client's purchased-item-id set, accumulated over all of
the client's invoices in order. -/
def clientItemIds (clientId : String) (invoices : List Invoice) : List String :=
  (invoices.filter (fun inv => inv.clientId == clientId)).foldl
    (fun s inv => inv.items.foldl (fun s it => setAdd s it.id) s) []

/-- One entry of the `similarClients` map. The similarity recorded is
the one computed from the invoice that created the entry. -/
structure SimilarClient where
  clientId : String
  clientName : String
  similarity : Rat
  items : List String
deriving DecidableEq

/-- One step of the similar-client loop over all invoices: for an
invoice of another client sharing at least one item with the target's
set, record `sharedCount / max(|targetSet|, |invoice items|)` as that
client's similarity on first sight, and add the invoice's items to the
client's item set. -/
def addSimilar (targetId : String) (clientItems : List String)
    (scs : List SimilarClient) (inv : Invoice) : List SimilarClient :=
  if inv.clientId == targetId then scs
  else
    let commonItems := inv.items.filter (fun it => decide (it.id ∈ clientItems))
    if commonItems.length > 0 then
      let similarity : Rat :=
        (commonItems.length : Rat) / ((max clientItems.length inv.items.length : Nat) : Rat)
      let scs' := if scs.any (fun sc => sc.clientId == inv.clientId) then scs
                  else scs ++ [{ clientId := inv.clientId, clientName := inv.clientName
                                 similarity := similarity, items := [] }]
      scs'.map (fun sc =>
        if sc.clientId == inv.clientId then
          { sc with items := inv.items.foldl (fun s it => setAdd s it.id) sc.items }
        else sc)
    else scs

/-- One accumulating recommendation. -/
structure RecAcc where
  itemId : String
  score : Rat
  reasons : List String
deriving DecidableEq

/-- One step of the recommendation accumulation: skip items the target
already bought, create the entry on first sight, then add the similar
client's similarity to the score and push a reason. -/
def addCandidate (clientItems : List String) (similarity : Rat) (clientName : String)
    (recs : List RecAcc) (itemId : String) : List RecAcc :=
  if itemId ∈ clientItems then recs
  else
    let recs' := if recs.any (fun r => r.itemId == itemId) then recs
                 else recs ++ [{ itemId := itemId, score := 0, reasons := [] }]
    recs'.map (fun r =>
      if r.itemId == itemId then
        { r with score := r.score + similarity
                 reasons := r.reasons ++
                   ["Similar client " ++ clientName ++ " purchased this item"] }
      else r)

/-- A recommendation with the catalogue details attached. -/
structure RecOut where
  itemId : String
  score : Rat
  reasons : List String
  name : String
  unitPrice : Rat
  status : String
deriving DecidableEq

/-- Attach catalogue details, defaulting to "Unknown Item" when the
item is missing from the catalogue. -/
def recDetails (items : List CatalogItem) (r : RecAcc) : RecOut :=
  match items.find? (fun i => i.id == r.itemId) with
  | some it => { itemId := r.itemId, score := r.score, reasons := r.reasons
                 name := it.name, unitPrice := it.unitPrice, status := it.status }
  | none => { itemId := r.itemId, score := r.score, reasons := r.reasons
              name := "Unknown Item", unitPrice := 0, status := "unknown" }

/-- Descending-score comparator of `.sort((a, b) => b.score - a.score)`. -/
def recOrder (a b : RecOut) : Prop := b.score ≤ a.score

instance : DecidableRel recOrder :=
  fun a b => inferInstanceAs (Decidable (b.score ≤ a.score))

instance : IsTotal RecOut recOrder :=
  ⟨fun a b => le_total b.score a.score⟩

instance : IsTrans RecOut recOrder :=
  ⟨fun _ _ _ h1 h2 => le_trans h2 h1⟩

/-- The similar-client map for a target client. -/
def similarClientsOf (clientId : String) (invoices : List Invoice) :
    List SimilarClient :=
  invoices.foldl (addSimilar clientId (clientItemIds clientId invoices)) []

/-- The accumulated recommendations before details, sorting, slicing. -/
def rawRecommendations (clientId : String) (invoices : List Invoice) :
    List RecAcc :=
  (similarClientsOf clientId invoices).foldl
    (fun recs sc => sc.items.foldl
      (addCandidate (clientItemIds clientId invoices) sc.similarity sc.clientName) recs)
    []

/-- `AnalyticsService.getProductRecommendations`: similar clients, then
candidate accumulation, then details, descending sort, top 5. -/
def getProductRecommendations (clientId : String) (invoices : List Invoice)
    (items : List CatalogItem) : List RecOut :=
  (((rawRecommendations clientId invoices).map (recDetails items)).insertionSort
    recOrder).take 5

/-- Fold invariant: a property of all accumulated elements survives a
`foldl` whose step preserves it. -/
theorem foldl_mem_preserve {α β : Type} (P : α → Prop) (f : List α → β → List α)
    (hf : ∀ acc b, (∀ x ∈ acc, P x) → ∀ x ∈ f acc b, P x) :
    ∀ (l : List β) (acc : List α), (∀ x ∈ acc, P x) → ∀ x ∈ l.foldl f acc, P x := by
  intro l
  induction l with
  | nil => exact fun acc h => h
  | cons b rest ih => exact fun acc h => ih (f acc b) (hf acc b h)

/-- `addCandidate` never adds an item the target already bought. -/
theorem addCandidate_not_purchased (ci : List String) (sim : Rat) (cname : String)
    (recs : List RecAcc) (itemId : String)
    (h : ∀ r ∈ recs, r.itemId ∉ ci) :
    ∀ r ∈ addCandidate ci sim cname recs itemId, r.itemId ∉ ci := by
  intro r hr
  unfold addCandidate at hr
  split at hr
  · exact h r hr
  · rename_i hnotmem
    rcases List.mem_map.mp hr with ⟨r0, hr0, rfl⟩
    have hr0' : r0.itemId ∉ ci := by
      have hcases : r0 ∈ recs ∨ r0 = { itemId := itemId, score := 0, reasons := [] } := by
        split at hr0
        · exact Or.inl hr0
        · exact (List.mem_append.mp hr0).elim Or.inl
            (fun hx => Or.inr (List.mem_singleton.mp hx))
      rcases hcases with hmem | rfl
      · exact h r0 hmem
      · exact hnotmem
    split
    · exact hr0'
    · exact hr0'

/-- No accumulated recommendation is an already-purchased item. -/
theorem rawRecommendations_not_purchased (clientId : String) (invoices : List Invoice) :
    ∀ r ∈ rawRecommendations clientId invoices,
      r.itemId ∉ clientItemIds clientId invoices := by
  unfold rawRecommendations
  refine foldl_mem_preserve _ _ ?_ _ _ (fun x hx => absurd hx (List.not_mem_nil x))
  intro acc sc hacc
  exact foldl_mem_preserve _ _
    (fun acc2 itemId hacc2 =>
      addCandidate_not_purchased (clientItemIds clientId invoices)
        sc.similarity sc.clientName acc2 itemId hacc2)
    sc.items acc hacc

/-- Attaching details keeps the item id. -/
theorem recDetails_itemId (items : List CatalogItem) (r : RecAcc) :
    (recDetails items r).itemId = r.itemId := by
  unfold recDetails
  split <;> rfl

/-- C6: the recommendation list has at most 5 entries, is sorted by
descending accumulated score, and contains no item id the target client
has already purchased. -/
theorem getProductRecommendations_shape (clientId : String)
    (invoices : List Invoice) (items : List CatalogItem) :
    (getProductRecommendations clientId invoices items).length ≤ 5 ∧
    (getProductRecommendations clientId invoices items).Sorted recOrder ∧
    ∀ r ∈ getProductRecommendations clientId invoices items,
      r.itemId ∉ clientItemIds clientId invoices := by
  refine ⟨?_, ?_, ?_⟩
  · unfold getProductRecommendations
    rw [List.length_take]
    exact Nat.min_le_left _ _
  · unfold getProductRecommendations
    exact List.Pairwise.sublist (List.take_sublist _ _)
      (List.sorted_insertionSort recOrder _)
  · intro r hr
    unfold getProductRecommendations at hr
    have hr2 := (List.take_sublist 5 _).subset hr
    have hr3 := (List.perm_insertionSort recOrder _).mem_iff.mp hr2
    rcases List.mem_map.mp hr3 with ⟨r0, hr0, rfl⟩
    rw [recDetails_itemId]
    exact rawRecommendations_not_purchased clientId invoices r0 hr0

-- Sample data for the recommendation scenarios.
/-- Line-item reference P1. -/
def refP1 : ItemRef := { id := "p1", name := "P1", unitPrice := 10 }

/-- Line-item reference P2. -/
def refP2 : ItemRef := { id := "p2", name := "P2", unitPrice := 20 }

/-- Line-item reference P3. -/
def refP3 : ItemRef := { id := "p3", name := "P3", unitPrice := 30 }

/-- Line-item reference P4. -/
def refP4 : ItemRef := { id := "p4", name := "P4", unitPrice := 40 }

/-- Catalogue record of P1. -/
def cItemP1 : CatalogItem :=
  { id := "p1", name := "P1", unitPrice := 10, quantity := 5, status := "in-stock" }

/-- Catalogue record of P2. -/
def cItemP2 : CatalogItem :=
  { id := "p2", name := "P2", unitPrice := 20, quantity := 5, status := "in-stock" }

/-- Catalogue record of P3. -/
def cItemP3 : CatalogItem :=
  { id := "p3", name := "P3", unitPrice := 30, quantity := 5, status := "in-stock" }

/-- Catalogue record of P4. -/
def cItemP4 : CatalogItem :=
  { id := "p4", name := "P4", unitPrice := 40, quantity := 5, status := "in-stock" }

/-- Client A's invoice holding P1 and P2. -/
def eInvA : Invoice :=
  { clientId := "ca", clientName := "A", items := [refP1, refP2], total := 30
    status := "paid", issueDate := 0, dueDate := msPerDay }

/-- Client B's invoice holding P2 and P3. -/
def eInvB : Invoice :=
  { clientId := "cb", clientName := "B", items := [refP2, refP3], total := 50
    status := "paid", issueDate := 0, dueDate := msPerDay }

/-- Target client C's invoice holding P2. -/
def eInvC : Invoice :=
  { clientId := "cc", clientName := "C", items := [refP2], total := 20
    status := "paid", issueDate := 0, dueDate := msPerDay }

/-- Client A's second invoice holding only P4 (no overlap with C). -/
def c4InvA2 : Invoice :=
  { clientId := "ca", clientName := "A", items := [refP4], total := 40
    status := "paid", issueDate := 0, dueDate := msPerDay }

/-- The similarity of the spec's wording: `|T ∩ S| / max(|T|, |S|)`
over full purchased-item-id sets. Modelled from the spec for comparison
with what the code computes. -/
def specSimilarity (t s : List String) : Rat :=
  ((t.filter (fun x => decide (x ∈ s))).length : Rat) /
    ((max t.length s.length : Nat) : Rat)

/-- C4 counterexample: when client A's purchases are split across two
invoices ([P1,P2] and [P4]), the spec-side similarity over full sets is
1/3, but the code attributes 1/2 (computed from the first overlapping
invoice alone) and never turns P4 — a member of A's full set S — into a
candidate, because its invoice shares no item with the target. -/
theorem getProductRecommendations_not_set_based :
    specSimilarity (clientItemIds "cc" [eInvA, c4InvA2, eInvC])
        (clientItemIds "ca" [eInvA, c4InvA2, eInvC]) = 1/3 ∧
    (getProductRecommendations "cc" [eInvA, c4InvA2, eInvC]
        [cItemP1, cItemP2, cItemP3, cItemP4]).map (fun r => (r.itemId, r.score)) =
      [("p1", 1/2)] ∧
    ¬ ((1 : Rat)/2 = 1/3) ∧
    "p4" ∈ clientItemIds "ca" [eInvA, c4InvA2, eInvC] ∧
    "p4" ∉ (getProductRecommendations "cc" [eInvA, c4InvA2, eInvC]
        [cItemP1, cItemP2, cItemP3, cItemP4]).map (fun r => r.itemId) := by
  set_option maxRecDepth 20000 in with_unfolding_all decide

/-- C4 (amended): the similarity attributed to another client comes
from that client's first invoice sharing an item with the target's set
T — `shared / max(|T|, |invoice items|)` — and candidate items are
collected only from invoices sharing an item with T; on scenario E
(each client buys on one invoice) this yields exactly P1 with score 1/2
citing A and P3 with score 1/2 citing B. -/
theorem getProductRecommendations_per_invoice :
    (getProductRecommendations "cc" [eInvA, eInvB, eInvC]
        [cItemP1, cItemP2, cItemP3]).map
        (fun r => (r.itemId, r.score, r.reasons, r.name)) =
      [("p1", 1/2, ["Similar client A purchased this item"], "P1"),
       ("p3", 1/2, ["Similar client B purchased this item"], "P3")] ∧
    (similarClientsOf "cc" [eInvA, c4InvA2, eInvC]).map
        (fun sc => (sc.clientId, sc.similarity, sc.items)) =
      [("ca", 1/2, ["p1", "p2"])] := by
  set_option maxRecDepth 20000 in with_unfolding_all decide

/-- The top recommendation of scenario E, used by the C6 witness. -/
def eRecP1 : RecOut :=
  { itemId := "p1", score := 1/2
    reasons := ["Similar client A purchased this item"]
    name := "P1", unitPrice := 10, status := "in-stock" }

/-- Witness for C6 at a concrete input: scenario E's first
recommendation is a member of the output and is not already purchased. -/
theorem getProductRecommendations_shape_witness :
    eRecP1 ∈ getProductRecommendations "cc" [eInvA, eInvB, eInvC]
      [cItemP1, cItemP2, cItemP3] ∧
    eRecP1.itemId ∉ clientItemIds "cc" [eInvA, eInvB, eInvC] :=
  ⟨by set_option maxRecDepth 20000 in with_unfolding_all decide,
   (getProductRecommendations_shape "cc" [eInvA, eInvB, eInvC]
      [cItemP1, cItemP2, cItemP3]).2.2 eRecP1
     (by set_option maxRecDepth 20000 in with_unfolding_all decide)⟩

-- AIService.determineQueryType (src/unnamed/part_005).

/-- JS `toLowerCase()` on the character list (ASCII queries). -/
def lowerStr (s : String) : String := String.mk (s.data.map Char.toLower)

/-- Whether `pat` starts the character list `s`. -/
def charsStartWith : List Char → List Char → Bool
  | [], _ => true
  | _ :: _, [] => false
  | p :: ps, c :: cs => p == c && charsStartWith ps cs

/-- Whether `pat` occurs inside the character list. -/
def charsInfix (pat : List Char) : List Char → Bool
  | [] => pat.isEmpty
  | c :: cs => charsStartWith pat (c :: cs) || charsInfix pat cs

/-- JS `String.includes`. -/
def strIncludes (s pat : String) : Bool := charsInfix pat.data s.data

/-- `AIService.determineQueryType`: the keyword cascade. -/
def determineQueryType (query : String) : String :=
  let lowerQuery := lowerStr query
  if strIncludes lowerQuery "likely to buy" || strIncludes lowerQuery "recommend" ||
      strIncludes lowerQuery "suggest" then
    "product_recommendation"
  else if strIncludes lowerQuery "cross-sell" || strIncludes lowerQuery "up-sell" then
    "cross_sell_upsell"
  else if strIncludes lowerQuery "churn" || strIncludes lowerQuery "risk" then
    "churn_risk"
  else if strIncludes lowerQuery "pattern" || strIncludes lowerQuery "change" ||
      strIncludes lowerQuery "trend" then
    "pattern_analysis"
  else
    "general_analysis"

/-- The classifier of the spec's wording: an ordered rule table, first
matching rule wins, `general_analysis` otherwise. Modelled from the
spec for comparison with the code's cascade. -/
def classifierRules : List (List String × String) :=
  [(["likely to buy", "recommend", "suggest"], "product_recommendation"),
   (["cross-sell", "up-sell"], "cross_sell_upsell"),
   (["churn", "risk"], "churn_risk"),
   (["pattern", "change", "trend"], "pattern_analysis")]

/-- First-match evaluation of the rule table. -/
def specClassifyQuery (query : String) : String :=
  match classifierRules.find?
      (fun rule => rule.1.any (fun kw => strIncludes (lowerStr query) kw)) with
  | some rule => rule.2
  | none => "general_analysis"

/-- C7: the code's cascade agrees with the spec's ordered first-match
rule table on every query; a query containing both "recommend" and
"churn" classifies as product recommendation, and scenario C's query
classifies as churn risk. -/
theorem determineQueryType_first_match :
    (∀ q, determineQueryType q = specClassifyQuery q) ∧
    determineQueryType "Recommend retention offers for churn risk clients" =
      "product_recommendation" ∧
    determineQueryType "Which clients show signs of churn risk?" = "churn_risk" := by
  refine ⟨?_, by with_unfolding_all decide, by with_unfolding_all decide⟩
  intro q
  simp only [determineQueryType, specClassifyQuery, classifierRules, List.find?,
    List.any_cons, List.any_nil, Bool.or_false]
  cases h1 : strIncludes (lowerStr q) "likely to buy" <;>
    cases h2 : strIncludes (lowerStr q) "recommend" <;>
    cases h3 : strIncludes (lowerStr q) "suggest" <;>
    cases h4 : strIncludes (lowerStr q) "cross-sell" <;>
    cases h5 : strIncludes (lowerStr q) "up-sell" <;>
    cases h6 : strIncludes (lowerStr q) "churn" <;>
    cases h7 : strIncludes (lowerStr q) "risk" <;>
    cases h8 : strIncludes (lowerStr q) "pattern" <;>
    cases h9 : strIncludes (lowerStr q) "change" <;>
    cases h10 : strIncludes (lowerStr q) "trend" <;>
    rfl

-- AnalyticsService.analyzeClientPurchases / analyzeItemPerformance.

/-- The per-client rollup of `analyzeClientPurchases`. -/
structure ClientPurchase where
  id : String
  name : String
  totalInvoices : Nat
  totalSpent : Rat
  paidInvoices : Nat
  unpaidInvoices : Nat
  overdueInvoices : Nat
  recentInvoices : Nat
  recentSpent : Rat
  items : List String
  lastPurchaseDate : Option Int
  averageInvoiceValue : Rat
  paymentDelay : Int
  purchaseFrequency : Rat
deriving DecidableEq

/-- A fresh rollup for a client. -/
def emptyClientPurchase (cid cname : String) : ClientPurchase :=
  { id := cid, name := cname, totalInvoices := 0, totalSpent := 0
    paidInvoices := 0, unpaidInvoices := 0, overdueInvoices := 0
    recentInvoices := 0, recentSpent := 0, items := []
    lastPurchaseDate := none, averageInvoiceValue := 0
    paymentDelay := 0, purchaseFrequency := 0 }

/-- Fold one invoice into its client's rollup. -/
def updateClientPurchase (now : Int) (c : ClientPurchase) (inv : Invoice) :
    ClientPurchase :=
  let c := { c with totalInvoices := c.totalInvoices + 1
                    totalSpent := c.totalSpent + inv.total }
  let c :=
    if inv.status == "paid" then { c with paidInvoices := c.paidInvoices + 1 }
    else
      let c := { c with unpaidInvoices := c.unpaidInvoices + 1 }
      if isOverdue inv now then { c with overdueInvoices := c.overdueInvoices + 1 }
      else c
  let c :=
    if decide (inv.issueDate ≥ now - 90 * msPerDay) then
      { c with recentInvoices := c.recentInvoices + 1
               recentSpent := c.recentSpent + inv.total }
    else c
  let c := { c with items := inv.items.foldl (fun s (it : ItemRef) => setAdd s it.name) c.items }
  let c :=
    match c.lastPurchaseDate with
    | none => { c with lastPurchaseDate := some inv.issueDate }
    | some d =>
      if inv.issueDate > d then { c with lastPurchaseDate := some inv.issueDate } else c
  if inv.status == "unpaid" && isOverdue inv now then
    { c with paymentDelay := max c.paymentDelay (Int.fdiv (now - inv.dueDate) msPerDay) }
  else c

/-- One step of the bucketing loop, keyed by client id in insertion
order. -/
def cpStep (now : Int) (acc : List (String × ClientPurchase)) (inv : Invoice) :
    List (String × ClientPurchase) :=
  let acc' := if acc.any (fun p => p.1 == inv.clientId) then acc
              else acc ++ [(inv.clientId, emptyClientPurchase inv.clientId inv.clientName)]
  acc'.map (fun p =>
    if p.1 == inv.clientId then (p.1, updateClientPurchase now p.2 inv) else p)

/-- The final pass over the rollups. The accumulation object has no
`createdAt` field, so the source's `client.createdAt || now` falls back
to `now` and `purchaseFrequency` is `(now - now) / (n * 86400000)`. -/
def finalizeClientPurchase (now : Int) (c : ClientPurchase) : ClientPurchase :=
  { c with
    averageInvoiceValue :=
      if c.totalInvoices > 0 then c.totalSpent / (c.totalInvoices : Rat) else 0
    purchaseFrequency :=
      if c.totalInvoices > 0 then
        ((now - now : Int) : Rat) / ((c.totalInvoices : Rat) * (86400000 : Rat))
      else 0 }

/-- `AnalyticsService.analyzeClientPurchases`. -/
def analyzeClientPurchases (invoices : List Invoice) (now : Int) :
    List (String × ClientPurchase) :=
  (invoices.foldl (cpStep now) []).map (fun p => (p.1, finalizeClientPurchase now p.2))

/-- The per-item rollup of `analyzeItemPerformance`. -/
structure ItemStat where
  id : String
  name : String
  unitPrice : Rat
  currentStock : Int
  status : String
  totalSold : Nat
  totalRevenue : Rat
  invoicesCount : Nat
  averageQuantity : Rat
  lastSoldDate : Option Int
deriving DecidableEq

/-- Initialise one zeroed stat per catalogue item. -/
def ipInit (items : List CatalogItem) : List (String × ItemStat) :=
  items.map (fun it =>
    (it.id,
     { id := it.id, name := it.name, unitPrice := it.unitPrice
       currentStock := it.quantity, status := it.status
       totalSold := 0, totalRevenue := 0, invoicesCount := 0
       averageQuantity := 0, lastSoldDate := none }))

/-- Fold one line item of an invoice into the stats; line items whose
id is not in the stats are ignored. -/
def ipStep (stats : List (String × ItemStat)) (inv : Invoice) :
    List (String × ItemStat) :=
  inv.items.foldl
    (fun st itRef =>
      st.map (fun p =>
        if p.1 == itRef.id then
          (p.1,
           { p.2 with
             totalSold := p.2.totalSold + 1
             totalRevenue := p.2.totalRevenue + itRef.unitPrice
             invoicesCount := p.2.invoicesCount + 1
             lastSoldDate :=
               match p.2.lastSoldDate with
               | none => some inv.issueDate
               | some d => if inv.issueDate > d then some inv.issueDate else some d })
        else p))
    stats

/-- `AnalyticsService.analyzeItemPerformance`. -/
def analyzeItemPerformance (invoices : List Invoice) (items : List CatalogItem) :
    List (String × ItemStat) :=
  (invoices.foldl ipStep (ipInit items)).map
    (fun p =>
      (p.1,
       { p.2 with
         averageQuantity :=
           if p.2.invoicesCount > 0 then
             (p.2.totalSold : Rat) / (p.2.invoicesCount : Rat)
           else 0 }))

/-- The in-memory snapshot both aggregators consume. -/
structure Snapshot where
  invoices : List Invoice
  clients : List ClientDoc
  items : List CatalogItem
deriving DecidableEq

/-- State-passing form of `analyzeClientPurchases`: the source writes
only to its own fresh accumulator objects (`clientPurchases[...]`),
never to the input documents, so the snapshot component of the result
is the input snapshot unchanged. -/
def analyzeClientPurchasesS (s : Snapshot) (now : Int) :
    Snapshot × List (String × ClientPurchase) :=
  (s, analyzeClientPurchases s.invoices now)

/-- State-passing form of `analyzeItemPerformance`; as above, the
snapshot is returned unchanged. -/
def analyzeItemPerformanceS (s : Snapshot) :
    Snapshot × List (String × ItemStat) :=
  (s, analyzeItemPerformance s.invoices s.items)

/-- C10: running either aggregator leaves the snapshot unchanged, and
running it a second time on the snapshot the first call returned (with
the same `now`) yields the same output. -/
theorem aggregators_idempotent_no_mutation (s : Snapshot) (now : Int) :
    (analyzeClientPurchasesS s now).1 = s ∧
    (analyzeClientPurchasesS (analyzeClientPurchasesS s now).1 now).2 =
      (analyzeClientPurchasesS s now).2 ∧
    (analyzeItemPerformanceS s).1 = s ∧
    (analyzeItemPerformanceS (analyzeItemPerformanceS s).1).2 =
      (analyzeItemPerformanceS s).2 :=
  ⟨rfl, rfl, rfl, rfl⟩
